import Mathlib

/-!
Shallow embedding of the AI-in-personalized-Medication-and-Diet repository
(src/models.py, src/config.py, src/healthcare_assistant.py, src/ml_engine.py),
together with theorems settling the frozen claims about it.

Numeric clinical values (Python floats/ints) are modelled as rationals `ℚ`
for the deterministic rule engine, and as reals `ℝ` for the ML-engine part
(Euclidean distances involve square roots).  Python `None` is modelled by
`Option`; Python truthiness of a numeric value (`if x:`) is `x` present and
nonzero.
-/

namespace HealthAI

/-- Python truthiness of an optional number: `None` and `0` are falsy. -/
def qTruthy : Option ℚ → Bool
  | none => false
  | some v => v ≠ 0

/-- Models `x or 0` applied to an optional numeric value in `Patient.to_dict`
(models.py line 84-93): `None or 0 = 0`, `0.0 or 0 = 0`, otherwise the value
itself; numerically this is `Option.getD 0`. -/
def pyOrZero : Option ℚ → ℚ
  | none => 0
  | some v => v

/-- `needle` is a prefix of `hay` (character lists). -/
def beginsWith : List Char → List Char → Bool
  | _, [] => true
  | [], _ :: _ => false
  | a :: as, b :: bs => a = b && beginsWith as bs

/-- `needle` occurs as a contiguous substring of `hay` (character lists);
models Python `needle in hay` for strings. -/
def hasSubstr : List Char → List Char → Bool
  | [], needle => needle.isEmpty
  | a :: as, needle => beginsWith (a :: as) needle || hasSubstr as needle

/-- Python `needle in hay` on strings. -/
def strContains (hay needle : String) : Bool :=
  hasSubstr hay.toList needle.toList

/-- Python `' '.join(l)`. -/
def joinSpace (l : List String) : String := String.intercalate " " l

/-- Python 3 `round` on a rational: round-half-to-even (banker's rounding);
non-tie values round to the nearest integer. -/
def pyRound (q : ℚ) : ℤ :=
  let f := ⌊q⌋
  if q - f = 1/2 then (if Even f then f else f + 1) else round q

/-- `round(q, 1)`: round to one decimal place. -/
def round1 (q : ℚ) : ℚ := (pyRound (q * 10) : ℚ) / 10

/-- Insert into a sorted list (ascending). -/
def insertSorted (x : ℚ) : List ℚ → List ℚ
  | [] => [x]
  | y :: ys => if x ≤ y then x :: y :: ys else y :: insertSorted x ys

/-- Insertion sort, ascending. -/
def sortQ : List ℚ → List ℚ
  | [] => []
  | x :: xs => insertSorted x (sortQ xs)

/-- pandas `Series.median()` over the present (non-NaN) values: middle element
of the sorted values for odd length, mean of the two middle elements for even
length, undefined (NaN, modelled `none`) for an empty series. -/
def medianQ (l : List ℚ) : Option ℚ :=
  let s := sortQ l
  let n := s.length
  if n = 0 then none
  else if n % 2 = 1 then some (s.getD (n / 2) 0)
  else some ((s.getD (n / 2 - 1) 0 + s.getD (n / 2) 0) / 2)

/-! ## Data model (src/models.py) -/

/-- `Gender` enum (models.py lines 11-14). -/
inductive Gender
  | male
  | female
  | other
  deriving DecidableEq

/-- `Gender.value`. -/
def genderValue : Gender → String
  | .male => "male"
  | .female => "female"
  | .other => "other"

/-- `RiskLevel` enum (models.py lines 16-20). -/
inductive RiskLevel
  | low
  | moderate
  | high
  | critical
  deriving DecidableEq

/-- `VitalSigns` (models.py lines 22-32); all fields optional. -/
structure VitalSigns where
  systolic_bp : Option ℚ := none
  diastolic_bp : Option ℚ := none
  heart_rate : Option ℚ := none
  temperature : Option ℚ := none
  respiratory_rate : Option ℚ := none
  oxygen_saturation : Option ℚ := none
  weight : Option ℚ := none
  height : Option ℚ := none

/-- `VitalSigns.bmi` (models.py lines 34-40):
`if self.height and self.weight and self.height > 0:` — Python truthiness,
so a present-but-zero height or weight also yields `None`;
`height_m = height / 100`, result `round(weight / height_m ** 2, 1)`. -/
def bmi (v : VitalSigns) : Option ℚ :=
  match v.height, v.weight with
  | some h, some w =>
      if h ≠ 0 ∧ w ≠ 0 ∧ 0 < h then some (round1 (w / ((h / 100) ^ 2)))
      else none
  | _, _ => none

/-- `LabResults` (models.py lines 42-53); the test date is irrelevant to all
claims and omitted. -/
structure LabResults where
  fasting_glucose : Option ℚ := none
  hba1c : Option ℚ := none
  total_cholesterol : Option ℚ := none
  ldl_cholesterol : Option ℚ := none
  hdl_cholesterol : Option ℚ := none
  triglycerides : Option ℚ := none
  creatinine : Option ℚ := none
  bun : Option ℚ := none

/-- `MedicalHistory` (models.py lines 55-63); `lifestyle_factors` is a free
dictionary unused by every claim and omitted. -/
structure MedicalHistory where
  conditions : List String := []
  medications : List String := []
  allergies : List String := []
  family_history : List String := []
  surgeries : List String := []

/-- `Patient` (models.py lines 65-76); `created_at` omitted (wall-clock). -/
structure Patient where
  patient_id : String
  name : String
  age : ℤ
  gender : Gender
  vitals : VitalSigns
  lab_results : LabResults
  medical_history : MedicalHistory
  symptoms : List String := []

/-! ## Configuration data (src/config.py) -/

/-- `NUTRITION_DATABASE["diabetes_risk"]["recommended"]` (config.py). -/
def diabetesRiskRecommended : List String :=
  ["bitter gourd", "fenugreek leaves", "spinach",
   "okra", "bottle gourd", "ridge gourd",
   "moong dal", "chana dal", "masoor dal", "brown rice",
   "pearl millet", "sorghum", "finger millet",
   "Indian gooseberry", "black plum", "neem leaves",
   "turmeric", "cinnamon", "cumin", "carom seeds"]

/-- `NUTRITION_DATABASE["diabetes_risk"]["avoid"]`. -/
def diabetesRiskAvoid : List String :=
  ["white rice", "refined flour", "jaggery in excess",
   "sweets and mithai", "fried snacks", "samosa", "pakora",
   "sugary lassi", "mango in excess", "ripe banana", "potato"]

/-- `NUTRITION_DATABASE["cardiovascular_risk"]["recommended"]`. -/
def cardioRiskRecommended : List String :=
  ["arjuna bark tea", "garlic", "ginger", "turmeric",
   "flaxseeds", "walnuts", "almonds", "fish",
   "mustard oil in moderation", "coconut water", "green tea",
   "pomegranate", "grapes", "oats", "barley", "moong dal"]

/-- `NUTRITION_DATABASE["cardiovascular_risk"]["avoid"]`. -/
def cardioRiskAvoid : List String :=
  ["ghee in excess", "coconut oil in excess", "fried foods",
   "red meat", "organ meats", "egg yolk", "full-fat dairy",
   "salty snacks", "pickles", "papad", "processed foods"]

/-- `NUTRITION_DATABASE["hypertension"]["recommended"]`. -/
def hypertensionRecommended : List String :=
  ["bottle gourd", "cucumber", "watermelon", "coconut water",
   "banana", "pomegranate", "garlic", "ginger", "holy basil",
   "coriander seeds water", "fennel seeds", "cardamom",
   "low-salt dal", "steamed vegetables", "buttermilk"]

/-- `NUTRITION_DATABASE["hypertension"]["avoid"]`. -/
def hypertensionAvoid : List String :=
  ["excess salt", "pickles", "papad", "salty snacks",
   "processed foods", "canned foods", "soy sauce",
   "cheese", "salted nuts", "fried foods", "alcohol"]

/-- `EXERCISE_GUIDELINES[level]["aerobic"]` (config.py). -/
def exerciseAerobic : String → String
  | "advanced" => "45-60 minutes, 5-6 times per week, moderate to high intensity"
  | "intermediate" => "30-45 minutes, 4-5 times per week, moderate intensity"
  | _ => "20-30 minutes, 3-4 times per week, low to moderate intensity"

/-- One entry of `SUPPLEMENT_DATABASE` (a `{"name","dosage","timing"}` dict). -/
structure Supplement where
  suppName : String
  dosage : String
  timing : String
  deriving DecidableEq

/-- `SUPPLEMENT_DATABASE["general_wellness"]`. -/
def generalWellnessSupps : List Supplement :=
  [⟨"Vitamin D3", "1000-2000 IU daily", "with meals"⟩,
   ⟨"Multivitamin", "as directed", "with breakfast"⟩,
   ⟨"Probiotics", "10-50 billion CFU daily", "on empty stomach"⟩,
   ⟨"Vitamin B12", "1000 mcg daily", "with breakfast"⟩,
   ⟨"Iron (if deficient)", "18-27 mg daily", "on empty stomach"⟩]

/-- `SUPPLEMENT_DATABASE["diabetes_prevention"]`. -/
def diabetesPreventionSupps : List Supplement :=
  [⟨"Chromium Picolinate", "200-400 mcg daily", "with meals"⟩,
   ⟨"Alpha-Lipoic Acid", "300-600 mg daily", "before meals"⟩,
   ⟨"Cinnamon Extract", "500-1000 mg daily", "with meals"⟩,
   ⟨"Bitter Melon Extract", "500-1000 mg daily", "before meals"⟩,
   ⟨"Fenugreek Extract", "500 mg twice daily", "before meals"⟩]

/-- `SUPPLEMENT_DATABASE["cardiovascular_health"]`. -/
def cardiovascularHealthSupps : List Supplement :=
  [⟨"Omega-3 Fatty Acids", "1000-2000 mg daily", "with meals"⟩,
   ⟨"Coenzyme Q10", "100-200 mg daily", "with fat-containing meal"⟩,
   ⟨"Magnesium", "200-400 mg daily", "before bedtime"⟩,
   ⟨"Arjuna Extract", "500 mg twice daily", "after meals"⟩,
   ⟨"Garlic Extract", "600-900 mg daily", "with meals"⟩]

/-- `WARNING_SIGNS["immediate_attention"]` (config.py). -/
def immediateAttentionSigns : List String :=
  ["Chest pain or pressure",
   "Difficulty breathing",
   "Severe headache",
   "Blood pressure >180/110",
   "Blood glucose <70 or >400",
   "Loss of consciousness",
   "Severe allergic reaction"]

/-- `WARNING_SIGNS["urgent_consultation"]`. -/
def urgentConsultationSigns : List String :=
  ["Persistent fatigue",
   "Unexplained weight loss/gain",
   "Frequent urination and excessive thirst",
   "Blurred vision",
   "Slow-healing wounds",
   "Numbness or tingling in extremities"]

/-! ## Result structures (src/models.py lines 100-155) -/

/-- `ClusterProfile` (models.py lines 100-109).  The similarity and
confidence fields are reals; the rest is static descriptive data. -/
structure ClusterProfile where
  cluster_id : ℕ
  cluster_name : String
  characteristics : List String
  typical_conditions : List String
  risk_factors : List String
  similarity_score : ℝ
  confidence_level : ℝ

/-- The static (training-time) fields of a `ClusterProfile`, i.e. everything
except the per-query similarity/confidence values. -/
def staticPart (c : ClusterProfile) :
    ℕ × String × List String × List String × List String :=
  (c.cluster_id, c.cluster_name, c.characteristics, c.typical_conditions,
   c.risk_factors)

/-- `NutritionRecommendation` (models.py lines 120-127). -/
structure NutritionRecommendation where
  foods_to_emphasize : List String
  foods_to_avoid : List String
  meal_planning_tips : List String
  hydration_guidelines : String
  special_considerations : List String

/-- `LifestyleRecommendation` (models.py lines 129-138). -/
structure LifestyleRecommendation where
  exercise_type : String
  exercise_frequency : String
  exercise_duration : String
  exercise_intensity : String
  sleep_recommendations : List String
  stress_management : List String
  activity_modifications : List String
  deriving DecidableEq

/-- `SupplementRecommendation` (models.py lines 140-146). -/
structure SupplementRecommendation where
  recommended_supplements : List Supplement
  contraindications : List String
  interaction_warnings : List String
  monitoring_suggestions : List String
  deriving DecidableEq

/-- `SafetyAlert` (models.py lines 148-155). -/
structure SafetyAlert where
  risk_level : RiskLevel
  warning_signs : List String
  immediate_actions : List String
  follow_up_timeline : String
  specialist_referrals : List String

/-! ## Recommendation engine (src/healthcare_assistant.py) -/

/-- Models the Python pattern `x and x >= t` on an optional numeric value:
truthiness of `x` first, then the comparison. -/
def optGe (x : Option ℚ) (t : ℚ) : Bool :=
  match x with
  | none => false
  | some v => v ≠ 0 && t ≤ v

/-- Models `not x or x < t` on an optional numeric value (used by the
fitness-tier conditions on BMI). -/
def bmiBelow (b : Option ℚ) (t : ℚ) : Bool :=
  match b with
  | none => true
  | some v => if v = 0 then true else v < t

/-- The patient's condition list, lower-cased
(`[c.lower() for c in patient.medical_history.conditions]`). -/
def lowerConditions (p : Patient) : List String :=
  p.medical_history.conditions.map String.toLower

/-- Diabetes/pre-diabetes trigger (healthcare_assistant.py lines 85-87). -/
def diabetesTrigger (p : Patient) : Bool :=
  optGe p.lab_results.hba1c (57/10) ||
  optGe p.lab_results.fasting_glucose 100 ||
  (lowerConditions p).any (fun c => strContains c "diabetes")

/-- Cardiovascular-risk trigger (healthcare_assistant.py lines 101-103). -/
def cardioTrigger (p : Patient) : Bool :=
  optGe p.vitals.systolic_bp 130 ||
  optGe p.lab_results.total_cholesterol 200 ||
  (lowerConditions p).any
    (fun c => strContains c "hypertension" || strContains c "heart")

/-- `PersonalizedHealthcareAssistant._generate_nutrition_recommendations`
(healthcare_assistant.py lines 54-142).  The `cluster_profile` parameter is
accepted, as in the source, but no rule reads it.  The final
`list(set(...))` deduplication is modelled by `List.dedup`; Python's set
iteration order is unspecified, so only the set of elements is meaningful. -/
def generateNutrition (p : Patient) (_cluster_profile : ClusterProfile) :
    NutritionRecommendation :=
  let baseEmphasize : List String :=
    ["Green leafy vegetables (palak, methi, spinach)",
     "Lentils (moong dal, masoor dal, chana dal)",
     "Seasonal fruits (guava, papaya, apple)",
     "Whole grains (brown rice, bajra, jowar, ragi)",
     "Curd and buttermilk",
     "Turmeric, ginger, garlic"]
  let baseAvoid : List String :=
    ["Deep fried foods (samosa, pakora, puri)",
     "Sweets and mithai",
     "Refined flour products (maida)",
     "Excessive salt and pickles",
     "Processed and packaged foods"]
  let diab := diabetesTrigger p
  let cardio := cardioTrigger p
  let hyper := optGe p.vitals.systolic_bp 130
  let weight := optGe (bmi p.vitals) 25
  let emphasize :=
    baseEmphasize ++
    (if diab then diabetesRiskRecommended else []) ++
    (if cardio then cardioRiskRecommended else []) ++
    (if hyper then hypertensionRecommended else [])
  let avoid :=
    baseAvoid ++
    (if diab then diabetesRiskAvoid else []) ++
    (if cardio then cardioRiskAvoid else []) ++
    (if hyper then hypertensionAvoid else [])
  let tips :=
    (if diab then
      ["Eat 5-6 small meals throughout the day",
       "Include protein in every meal (dal, paneer, curd)",
       "Reduce rice quantity, prefer roti (whole wheat bread)",
       "Include bitter gourd, fenugreek leaves, and black plum in diet",
       "Walk for 10-15 minutes after meals"] else []) ++
    (if cardio then
      ["Drink arjuna bark decoction for heart health",
       "Reduce salt intake - avoid pickles and papad",
       "Include fish 2-3 times per week",
       "Include flaxseeds and walnuts in diet",
       "Drink coconut water regularly"] else []) ++
    (if weight then
      ["Fill half your plate with vegetables",
       "Eat slowly and chew properly",
       "Have salad before main meal",
       "Reduce sugar and ghee intake",
       "Have early dinner"] else [])
  let special :=
    (if diab then
      ["Monitor blood glucose levels as recommended by healthcare provider"]
     else []) ++
    (if hyper then ["Monitor blood pressure regularly"] else []) ++
    (if weight then
      ["Consult a dietitian for personalized meal planning"] else [])
  { foods_to_emphasize := emphasize.dedup
    foods_to_avoid := avoid.dedup
    meal_planning_tips := tips
    hydration_guidelines :=
      "Drink 8-10 glasses of water daily, include coconut water and buttermilk in summer"
    special_considerations := special }

/-- Capitalize the first character (Python `str.title()` on the one-word,
lower-case fitness-level strings used here). -/
def titleWord (s : String) : String :=
  match s.toList with
  | [] => ""
  | c :: rest => String.mk (c.toUpper :: rest)

/-- `_generate_lifestyle_recommendations`
(healthcare_assistant.py lines 144-207); the `cluster_profile` parameter is
accepted but unread. -/
def generateLifestyle (p : Patient) (_cluster_profile : ClusterProfile) :
    LifestyleRecommendation :=
  let bmiV := bmi p.vitals
  let conds := lowerConditions p
  let fl1 :=
    if p.age < 40 && p.medical_history.conditions.isEmpty && bmiBelow bmiV 30
    then "intermediate" else "beginner"
  let fitnessLevel :=
    if p.age < 30 && p.medical_history.conditions.isEmpty && bmiBelow bmiV 25
    then "advanced" else fl1
  let mods :=
    (if conds.any (fun c => strContains c "heart") ||
        optGe p.vitals.systolic_bp 140 then
      ["Avoid high-intensity exercise without medical clearance",
       "Monitor heart rate during exercise"] else []) ++
    (if conds.any (fun c => strContains c "diabetes") then
      ["Monitor blood glucose before and after exercise",
       "Carry fast-acting carbohydrates during exercise"] else []) ++
    (if optGe bmiV 35 then
      ["Start with low-impact activities (swimming, walking)",
       "Gradually increase intensity as fitness improves"] else [])
  let stress :=
    ["Practice deep breathing exercises (10 minutes daily)",
     "Consider meditation or mindfulness apps",
     "Engage in regular physical activity",
     "Maintain social connections and hobbies"] ++
    (if optGe p.vitals.systolic_bp 130 then
      ["Practice stress-reduction techniques as stress can elevate blood pressure"]
     else [])
  { exercise_type := exerciseAerobic fitnessLevel
    exercise_frequency := "Most days of the week"
    exercise_duration := "30-60 minutes"
    exercise_intensity := titleWord fitnessLevel
    sleep_recommendations :=
      ["Aim for 7-9 hours of quality sleep nightly",
       "Maintain consistent sleep and wake times",
       "Create a cool, dark, quiet sleeping environment",
       "Avoid screens 1 hour before bedtime"]
    stress_management := stress
    activity_modifications := mods }

/-- `_generate_supplement_recommendations`
(healthcare_assistant.py lines 209-251); the `cluster_profile` parameter is
accepted but unread. -/
def generateSupplements (p : Patient) (_cluster_profile : ClusterProfile) :
    SupplementRecommendation :=
  let conds := lowerConditions p
  let meds := p.medical_history.medications.map String.toLower
  let diab :=
    optGe p.lab_results.hba1c (57/10) ||
    conds.any (fun c => strContains c "diabetes")
  let cardio :=
    optGe p.vitals.systolic_bp 130 ||
    optGe p.lab_results.total_cholesterol 200
  let warfarin :=
    meds.any (fun m => strContains m "warfarin" || strContains m "blood thinner")
  let metformin :=
    meds.any (fun m =>
      strContains m "diabetes medication" || strContains m "metformin")
  { recommended_supplements :=
      generalWellnessSupps ++
      (if diab then diabetesPreventionSupps else []) ++
      (if cardio then cardiovascularHealthSupps else [])
    contraindications :=
      if warfarin then
        ["Avoid high-dose omega-3 supplements without medical supervision"]
      else []
    interaction_warnings :=
      (if warfarin then
        ["Omega-3 supplements may increase bleeding risk with blood thinners"]
       else []) ++
      (if metformin then
        ["Monitor blood glucose when adding chromium or cinnamon supplements"]
       else [])
    monitoring_suggestions :=
      (if diab then
        ["Monitor blood glucose levels when starting new supplements"]
       else []) ++
      (if cardio then ["Monitor blood pressure regularly"] else []) }

/-! ## Risk stratifier (`_generate_safety_alerts`,
healthcare_assistant.py lines 253-325), modelled as an explicit state
machine mirroring the sequential blocks of the source. -/

/-- The mutable locals of `_generate_safety_alerts`. -/
structure SafetyState where
  risk_level : RiskLevel
  warning_signs : List String
  immediate_actions : List String
  follow_up_timeline : String
  risk_factors : ℤ
  specialist_referrals : List String

/-- Initial state (healthcare_assistant.py lines 257-264). -/
def initSafety : SafetyState :=
  { risk_level := .low
    warning_signs := []
    immediate_actions := []
    follow_up_timeline := "Annual routine check-up"
    risk_factors := 0
    specialist_referrals := [] }

/-- Blood-pressure block (lines 267-276); guarded by truthiness of
`systolic_bp`. -/
def bpCheck (p : Patient) (s : SafetyState) : SafetyState :=
  match p.vitals.systolic_bp with
  | none => s
  | some v =>
    if v = 0 then s
    else if 180 ≤ v then
      { s with risk_level := .critical,
               warning_signs := s.warning_signs ++ immediateAttentionSigns,
               immediate_actions := s.immediate_actions ++
                 ["Seek immediate medical attention for blood pressure crisis"] }
    else if 140 ≤ v then
      { s with risk_factors := s.risk_factors + 2,
               specialist_referrals := s.specialist_referrals ++
                 ["Cardiologist for hypertension management"] }
    else if 130 ≤ v then { s with risk_factors := s.risk_factors + 1 }
    else s

/-- Glucose block (lines 279-287). -/
def glucoseCheck (p : Patient) (s : SafetyState) : SafetyState :=
  match p.lab_results.fasting_glucose with
  | none => s
  | some v =>
    if v = 0 then s
    else if 400 ≤ v then
      { s with risk_level := .critical,
               immediate_actions := s.immediate_actions ++
                 ["Seek immediate medical attention for severe hyperglycemia"] }
    else if 126 ≤ v then
      { s with risk_factors := s.risk_factors + 2,
               specialist_referrals := s.specialist_referrals ++
                 ["Endocrinologist for diabetes management"] }
    else if 100 ≤ v then { s with risk_factors := s.risk_factors + 1 }
    else s

/-- HbA1c block (lines 290-296); the referral is appended only when not
already present. -/
def hba1cCheck (p : Patient) (s : SafetyState) : SafetyState :=
  match p.lab_results.hba1c with
  | none => s
  | some v =>
    if v = 0 then s
    else if 13/2 ≤ v then
      { s with risk_factors := s.risk_factors + 2,
               specialist_referrals :=
                 if s.specialist_referrals.contains
                      "Endocrinologist for diabetes management"
                 then s.specialist_referrals
                 else s.specialist_referrals ++
                   ["Endocrinologist for diabetes management"] }
    else if 57/10 ≤ v then { s with risk_factors := s.risk_factors + 1 }
    else s

/-- BMI block (lines 299-304); guarded by truthiness of the derived BMI. -/
def bmiCheck (p : Patient) (s : SafetyState) : SafetyState :=
  match bmi p.vitals with
  | none => s
  | some v =>
    if v = 0 then s
    else if 35 ≤ v then
      { s with risk_factors := s.risk_factors + 2,
               specialist_referrals := s.specialist_referrals ++
                 ["Registered dietitian for weight management"] }
    else if 30 ≤ v then { s with risk_factors := s.risk_factors + 1 }
    else s

/-- Final tier mapping (lines 307-313), skipped when already CRITICAL. -/
def tierCheck (s : SafetyState) : SafetyState :=
  if s.risk_level ≠ .critical then
    if 4 ≤ s.risk_factors then
      { s with risk_level := .high, follow_up_timeline := "Within 1-2 months" }
    else if 2 ≤ s.risk_factors then
      { s with risk_level := .moderate,
               follow_up_timeline := "Within 3-6 months" }
    else s
  else s

/-- General warning signs for MODERATE/HIGH (lines 316-317). -/
def urgentCheck (s : SafetyState) : SafetyState :=
  if s.risk_level = .moderate ∨ s.risk_level = .high then
    { s with warning_signs := s.warning_signs ++ urgentConsultationSigns }
  else s

/-- `_generate_safety_alerts` (lines 253-325); the `cluster_profile`
parameter is accepted but unread. -/
def generateSafetyAlerts (p : Patient) (_cluster_profile : ClusterProfile) :
    SafetyAlert :=
  let s := urgentCheck (tierCheck
    (bmiCheck p (hba1cCheck p (glucoseCheck p (bpCheck p initSafety)))))
  { risk_level := s.risk_level
    warning_signs := s.warning_signs
    immediate_actions := s.immediate_actions
    follow_up_timeline := s.follow_up_timeline
    specialist_referrals := s.specialist_referrals }

/-! ## Feature extraction (src/models.py `to_dict`, src/ml_engine.py
`prepare_features` / `analyze_patient`) -/

/-- The 13 entries of `numerical_features` (ml_engine.py lines 41-45), in
source order. -/
inductive NumFeature
  | age | bmiF | systolicBp | diastolicBp | heartRate
  | fastingGlucose | hba1c | totalChol | ldlChol
  | hdlChol | triglycerides | numConditions | numMedications
  deriving DecidableEq

/-- The raw per-record value of a numerical feature before any defaulting:
the optional field itself (derived BMI for `bmiF`); `age`,
`num_conditions` and `num_medications` are total and always present. -/
def rawNumFeature (p : Patient) : NumFeature → Option ℚ
  | .age => some (p.age : ℚ)
  | .bmiF => bmi p.vitals
  | .systolicBp => p.vitals.systolic_bp
  | .diastolicBp => p.vitals.diastolic_bp
  | .heartRate => p.vitals.heart_rate
  | .fastingGlucose => p.lab_results.fasting_glucose
  | .hba1c => p.lab_results.hba1c
  | .totalChol => p.lab_results.total_cholesterol
  | .ldlChol => p.lab_results.ldl_cholesterol
  | .hdlChol => p.lab_results.hdl_cholesterol
  | .triglycerides => p.lab_results.triglycerides
  | .numConditions => some (p.medical_history.conditions.length : ℚ)
  | .numMedications => some (p.medical_history.medications.length : ℚ)

/-- The value `Patient.to_dict` (models.py lines 78-98) stores for a
numerical feature: every optional value goes through `x or 0`, so the
dictionary always holds a plain number. -/
def toDictNumFeature (p : Patient) (f : NumFeature) : ℚ :=
  pyOrZero (rawNumFeature p f)

/-- Concatenated lower-cased family history
(`' '.join(family_history).lower()`). -/
def familyHistoryText (p : Patient) : String :=
  (joinSpace p.medical_history.family_history).toLower

/-- `family_diabetes` feature: `int('diabetes' in ...)` (models.py line 96,
recomputed identically at ml_engine.py line 225). -/
def familyDiabetesFeature (p : Patient) : ℚ :=
  if strContains (familyHistoryText p) "diabetes" then 1 else 0

/-- `family_heart_disease` feature: `int('heart' in ...)` (models.py line
97, ml_engine.py line 226). -/
def familyHeartFeature (p : Patient) : ℚ :=
  if strContains (familyHistoryText p) "heart" then 1 else 0

/-- `gender_male` feature: `(gender == 'male').astype(int)`
(ml_engine.py line 51 on the training path, line 220 at inference). -/
def genderMaleFeature (g : Gender) : ℚ :=
  if genderValue g = "male" then 1 else 0

/-- `gender_female` feature (ml_engine.py lines 52 and 221). -/
def genderFemaleFeature (g : Gender) : ℚ :=
  if genderValue g = "female" then 1 else 0

/-- The `gender_male` column the training path adds to the DataFrame
(ml_engine.py line 51). -/
def genderMaleColumn (ps : List Patient) : List ℚ :=
  ps.map (fun p => genderMaleFeature p.gender)

/-- The `gender_female` column (ml_engine.py line 52). -/
def genderFemaleColumn (ps : List Patient) : List ℚ :=
  ps.map (fun p => genderFemaleFeature p.gender)

/-- The 17-entry inference feature vector, in `feature_names` order
(13 numerical, then family_diabetes, family_heart_disease, gender_male,
gender_female).  Built from `to_dict` (every cell defined), gender and
family-history conversion (ml_engine.py lines 207-229); the trailing
`fillna(0)` has nothing left to fill. -/
def featureVector (p : Patient) : List ℚ :=
  [toDictNumFeature p .age, toDictNumFeature p .bmiF,
   toDictNumFeature p .systolicBp, toDictNumFeature p .diastolicBp,
   toDictNumFeature p .heartRate, toDictNumFeature p .fastingGlucose,
   toDictNumFeature p .hba1c, toDictNumFeature p .totalChol,
   toDictNumFeature p .ldlChol, toDictNumFeature p .hdlChol,
   toDictNumFeature p .triglycerides, toDictNumFeature p .numConditions,
   toDictNumFeature p .numMedications,
   familyDiabetesFeature p, familyHeartFeature p,
   genderMaleFeature p.gender, genderFemaleFeature p.gender]

/-! ## Training-set preparation of the numerical columns
(`prepare_features`, ml_engine.py lines 30-66).

A DataFrame cell is `Option ℚ` (`none` = NaN).  The frame is built from
`to_dict`, whose numerical entries are always defined, and the
`fillna(median)` loop (lines 57-60) then runs over these columns. -/

/-- The DataFrame column for a numerical feature as built from the
`to_dict` rows: every cell is present. -/
def dfColumn (ps : List Patient) (f : NumFeature) : List (Option ℚ) :=
  ps.map (fun p => some (toDictNumFeature p f))

/-- pandas `col.fillna(m)`: replaces missing cells by `m`; filling with a
missing median (empty column) changes nothing. -/
def fillna (m : Option ℚ) (col : List (Option ℚ)) : List (Option ℚ) :=
  match m with
  | none => col
  | some mv => col.map (fun c => some (c.getD mv))

/-- pandas `col.median()`: median of the present cells. -/
def colMedian (col : List (Option ℚ)) : Option ℚ :=
  medianQ (col.filterMap id)

/-- The training-path numerical column after the median fill
(`df[feature] = df[feature].fillna(df[feature].median())`,
ml_engine.py line 60). -/
def trainingColumn (ps : List Patient) (f : NumFeature) : List (Option ℚ) :=
  let col := dfColumn ps f
  fillna (colMedian col) col

/-- The training column as the claim describes it: missing raw clinical
values (not yet zero-filled) are imputed with the column median over the
training corpus.  Stated from the claim's words, for comparison with
`trainingColumn`. -/
def claimTrainingColumn (ps : List Patient) (f : NumFeature) :
    List (Option ℚ) :=
  let col := ps.map (fun p => rawNumFeature p f)
  fillna (colMedian col) col

/-- The inference-path cell for a numerical feature:
the `to_dict` value placed in the one-row frame, then `fillna(0)`
(ml_engine.py line 229). -/
def inferenceNumCell (p : Patient) (f : NumFeature) : ℚ :=
  ((some (toDictNumFeature p f) : Option ℚ)).getD 0

/-! ## ML engine inference (`HealthMLEngine.analyze_patient`,
ml_engine.py lines 201-265).

Float computations are modelled over `ℝ` (Euclidean norms need square
roots), so this section is noncomputable. -/

/-- `feature_names` (ml_engine.py line 55). -/
def featureNames : List String :=
  ["age", "bmi", "systolic_bp", "diastolic_bp", "heart_rate",
   "fasting_glucose", "hba1c", "total_cholesterol", "ldl_cholesterol",
   "hdl_cholesterol", "triglycerides", "num_conditions", "num_medications",
   "family_diabetes", "family_heart_disease", "gender_male", "gender_female"]

/-- `PCAFeatures` (models.py lines 111-118); the feature-importance dict is
an association list keyed by feature name. -/
structure PCAFeatures where
  component_1 : ℝ
  component_2 : ℝ
  component_3 : ℝ
  explained_variance : List ℝ
  feature_importance : List (String × ℝ)

/-- The trained state of `HealthMLEngine`: scaler parameters, K-means
centroids, PCA parameters, and the per-cluster profiles built at training
time (`self.cluster_profiles`, a dict indexed by `0..k-1`, modelled as a
list). -/
structure EngineState where
  is_trained : Bool
  means : List ℝ
  scales : List ℝ
  centers : List (List ℝ)
  pcaMean : List ℝ
  pcaComponents : List (List ℝ)
  explainedVar : List ℝ
  profiles : List ClusterProfile

/-- The message of the `ValueError` raised at ml_engine.py line 204 — the
error the spec names `NotTrainedError`. -/
def notTrainedMsg : String := "Model must be trained before analyzing patients"

/-- Errors of the inference entry points.  `notTrained` models the
`ValueError("Model must be trained before analyzing patients")` raised when
inference runs before training. -/
inductive MLError
  | notTrained (msg : String)
  deriving DecidableEq

noncomputable section

/-- `np.linalg.norm(x - y)`: Euclidean distance. -/
def eucDist (x y : List ℝ) : ℝ :=
  Real.sqrt ((List.zipWith (fun a b => (a - b) ^ 2) x y).sum)

/-- `StandardScaler.transform`: elementwise `(x - mean) / scale`
(sklearn stores `scale_` with zero standard deviations replaced by 1). -/
def scaleVec (xs means scales : List ℝ) : List ℝ :=
  List.zipWith (fun x ms => (x - ms.1) / ms.2) xs (means.zip scales)

/-- `kmeans.predict` on one vector: index of the nearest centroid,
ties broken by the lowest index. -/
def argminDist (v : List ℝ) (centers : List (List ℝ)) : ℕ :=
  ((centers.enum.foldl (fun best ic =>
      match best with
      | none => some (ic.1, eucDist v ic.2)
      | some (bi, bd) =>
          if eucDist v ic.2 < bd then some (ic.1, eucDist v ic.2)
          else some (bi, bd)) none).map Prod.fst).getD 0

/-- The scaled query vector of `analyze_patient` (ml_engine.py line 230). -/
def scaledOf (e : EngineState) (p : Patient) : List ℝ :=
  scaleVec ((featureVector p).map (fun q => (q : ℝ))) e.means e.scales

/-- The cluster id `analyze_patient` assigns (line 233). -/
def assignedCluster (e : EngineState) (p : Patient) : ℕ :=
  argminDist (scaledOf e p) e.centers

/-- The similarity computation of ml_engine.py lines 236-240: distance to
the assigned centroid, normalized by `np.max` of the distances from every
centroid (the assigned one included, at distance 0) to the assigned one.
`np.max` over this nonempty list of nonnegative numbers is modelled as
`foldr max 0`. -/
def similarityScore (centers : List (List ℝ)) (cid : ℕ) (v : List ℝ) : ℝ :=
  let c := centers.getD cid []
  let d := eucDist v c
  let m := (centers.map (fun ct => eucDist ct c)).foldr max 0
  if 0 < m then max 0 (1 - d / m) else 1

/-- The similarity value as the claim states it: the normalizer is the
maximum distance from the assigned centroid to every *other* centroid, and
the value is 1.0 when that maximum is not positive.  Stated from the
claim's words, for comparison with `similarityScore`. -/
def claimSimilarity (centers : List (List ℝ)) (cid : ℕ) (v : List ℝ) : ℝ :=
  let c := centers.getD cid []
  let d := eucDist v c
  let m := ((centers.eraseIdx cid).map (fun ct => eucDist ct c)).foldr max 0
  if 0 < m then max 0 (1 - d / m) else 1

/-- Dot product. -/
def dotR (a b : List ℝ) : ℝ := (List.zipWith (fun x y => x * y) a b).sum

/-- `pca.transform(scaled)[0]` and the loading-based feature-importance map
(ml_engine.py lines 243-249): projection of the centered vector on each
component, importance of feature `i` = sum of `|components_[:, i]|`.
A trained PCA has 3 components (config `pca_components`); out-of-range
component indices are modelled with default 0 exactly where the source
guards them (`component_3`). -/
def pcaFeaturesOf (e : EngineState) (v : List ℝ) : PCAFeatures :=
  let t := e.pcaComponents.map
    (fun row => dotR row (List.zipWith (fun a b => a - b) v e.pcaMean))
  { component_1 := t.getD 0 0
    component_2 := t.getD 1 0
    component_3 := if 2 < t.length then t.getD 2 0 else 0
    explained_variance := e.explainedVar
    feature_importance := featureNames.enum.map (fun en =>
      (en.2, (e.pcaComponents.map (fun row => |row.getD en.1 0|)).sum)) }

/-- Placeholder profile for the (unreachable on trained states) case of a
cluster id with no stored profile. -/
def defaultProfile : ClusterProfile :=
  { cluster_id := 0, cluster_name := "", characteristics := [],
    typical_conditions := [], risk_factors := [],
    similarity_score := 0, confidence_level := 0 }

/-- The result of `analyze_patient`: the returned (profile, pca) pair plus
the engine state after the call — the source mutates the stored
`self.cluster_profiles[cluster_id]` in place (lines 252-254), which the
explicit `newState` captures. -/
structure AnalyzeResult where
  profile : ClusterProfile
  pca : PCAFeatures
  newState : EngineState

/-- `HealthMLEngine.analyze_patient` (ml_engine.py lines 201-265).
Raises (models as `Except.error`) when not trained; otherwise assigns the
nearest centroid, computes similarity and PCA features, and writes
similarity/confidence into the stored cluster profile, returning that same
updated profile. -/
def analyzePatient (e : EngineState) (p : Patient) :
    Except MLError AnalyzeResult :=
  if e.is_trained then
    let scaled := scaledOf e p
    let cid := assignedCluster e p
    let sim := similarityScore e.centers cid scaled
    let prof := { e.profiles.getD cid defaultProfile with
                  similarity_score := sim,
                  confidence_level := sim * 0.9 }
    Except.ok { profile := prof
                pca := pcaFeaturesOf e scaled
                newState := { e with profiles := e.profiles.set cid prof } }
  else Except.error (MLError.notTrained notTrainedMsg)

/-- `WellnessPlan` (models.py lines 157-167), timestamp omitted. -/
structure WellnessPlan where
  patient : Patient
  cluster_profile : ClusterProfile
  pca_features : PCAFeatures
  nutrition : NutritionRecommendation
  lifestyle : LifestyleRecommendation
  supplements : SupplementRecommendation
  safety_alerts : SafetyAlert

/-- `PersonalizedHealthcareAssistant.generate_wellness_plan`
(healthcare_assistant.py lines 29-52): runs `analyze_patient` (whose
not-trained error propagates) and assembles the plan from the four
generators. -/
def generateWellnessPlan (e : EngineState) (p : Patient) :
    Except MLError (WellnessPlan × EngineState) :=
  match analyzePatient e p with
  | .error err => .error err
  | .ok r =>
      .ok ({ patient := p
             cluster_profile := r.profile
             pca_features := r.pca
             nutrition := generateNutrition p r.profile
             lifestyle := generateLifestyle p r.profile
             supplements := generateSupplements p r.profile
             safety_alerts := generateSafetyAlerts p r.profile }, r.newState)

end

/-! ## Concrete instances for witnesses and counterexamples -/

/-- Vitals of the spec's worked BMI example: weight 82 kg, height 165 cm. -/
def vTest : VitalSigns := { weight := some 82, height := some 165 }

/-- Vitals with a present-but-zero weight (and a valid height). -/
def v0 : VitalSigns := { weight := some 0, height := some 165 }

/-- Training patient with systolic BP 100. -/
def pA : Patient :=
  { patient_id := "A", name := "A", age := 50, gender := .male,
    vitals := { systolic_bp := some 100 }, lab_results := {},
    medical_history := {} }

/-- Training patient with systolic BP 120. -/
def pB : Patient :=
  { patient_id := "B", name := "B", age := 50, gender := .male,
    vitals := { systolic_bp := some 120 }, lab_results := {},
    medical_history := {} }

/-- Training patient with a missing systolic BP. -/
def pC : Patient :=
  { patient_id := "C", name := "C", age := 50, gender := .female,
    vitals := {}, lab_results := {}, medical_history := {} }

/-- A three-patient training corpus with one missing systolic value. -/
def ps3 : List Patient := [pA, pB, pC]

/-- A concrete static cluster profile (as built at training time,
similarity and confidence initialized to 0.0; ml_engine.py lines 190-199). -/
noncomputable def profile0 : ClusterProfile :=
  { cluster_id := 0, cluster_name := "Healthy Baseline",
    characteristics := ["Average age: 50.0 years"],
    typical_conditions := [], risk_factors := [],
    similarity_score := 0, confidence_level := 0 }

/-- Patient with hypertensive-crisis systolic BP 185 and diabetic-range
glucose 200. -/
def p185 : Patient :=
  { patient_id := "H", name := "H", age := 65, gender := .male,
    vitals := { systolic_bp := some 185, diastolic_bp := some 110 },
    lab_results := { fasting_glucose := some 200 },
    medical_history := {} }

/-- Patient whose gender is OTHER. -/
def pOther : Patient :=
  { patient_id := "O", name := "O", age := 30, gender := .other,
    vitals := {}, lab_results := {}, medical_history := {} }

/-- A trained single-cluster engine state: identity scaler over the 17
features, one centroid at the origin, three zero PCA components, one stored
profile. -/
noncomputable def e1 : EngineState :=
  { is_trained := true
    means := List.replicate 17 0
    scales := List.replicate 17 1
    centers := [List.replicate 17 0]
    pcaMean := List.replicate 17 0
    pcaComponents := List.replicate 3 (List.replicate 17 0)
    explainedVar := [1, 0, 0]
    profiles := [profile0] }

/-- `e1` before training completes. -/
noncomputable def e0 : EngineState := { e1 with is_trained := false }

/-- A simple inference query patient. -/
def p1 : Patient :=
  { patient_id := "Q", name := "Q", age := 40, gender := .female,
    vitals := {}, lab_results := {}, medical_history := {} }

/-- The stored profile after analyzing `p1` against `e1`: with a single
centroid the normalizer is 0, so similarity is 1.0 and confidence 0.9. -/
noncomputable def prof1 : ClusterProfile :=
  { profile0 with similarity_score := 1, confidence_level := 1 * 0.9 }

/-- The full result of `analyzePatient e1 p1`. -/
noncomputable def r1 : AnalyzeResult :=
  { profile := prof1
    pca := pcaFeaturesOf e1 (scaledOf e1 p1)
    newState := { e1 with profiles := [prof1] } }

/-! ## Helper lemmas -/

theorem sumSqSelf (l : List ℝ) :
    (List.zipWith (fun a b => (a - b) ^ 2) l l).sum = 0 := by
  induction l with
  | nil => simp
  | cons a t ih => simp [ih]

theorem eucDist_self (c : List ℝ) : eucDist c c = 0 := by
  rw [eucDist, sumSqSelf, Real.sqrt_zero]

theorem foldrMaxNonneg (l : List ℝ) : 0 ≤ l.foldr max 0 := by
  induction l with
  | nil => simp
  | cons a t ih => exact le_trans ih (le_max_right a _)

theorem foldrMaxEraseIdx (f : List ℝ → ℝ) :
    ∀ (l : List (List ℝ)) (i : ℕ) (hi : i < l.length),
    (l.map f).foldr max 0 =
      max (f (l.get ⟨i, hi⟩)) (((l.eraseIdx i).map f).foldr max 0) := by
  intro l
  induction l with
  | nil => intro i hi; simp at hi
  | cons a t ih =>
    intro i hi
    cases i with
    | zero => simp [List.eraseIdx]
    | succ j =>
      have hj : j < t.length := by simpa using hi
      simp only [List.map_cons, List.foldr_cons, List.eraseIdx_cons_succ,
        List.get_cons_succ]
      rw [ih j hj, max_left_comm]

theorem similarityScore_nonneg (centers : List (List ℝ)) (cid : ℕ)
    (v : List ℝ) : 0 ≤ similarityScore centers cid v := by
  simp only [similarityScore]
  split
  · exact le_max_left 0 _
  · norm_num

theorem similarityScore_le_one (centers : List (List ℝ)) (cid : ℕ)
    (v : List ℝ) : similarityScore centers cid v ≤ 1 := by
  simp only [similarityScore]
  split
  case isTrue hm =>
    refine max_le (by norm_num) ?_
    have hd : 0 ≤ eucDist v (centers.getD cid []) := Real.sqrt_nonneg _
    have hq : 0 ≤ eucDist v (centers.getD cid []) /
        ((centers.map (fun ct => eucDist ct (centers.getD cid []))).foldr max 0) :=
      div_nonneg hd (le_of_lt hm)
    linarith
  case isFalse _ => norm_num

theorem similarity_eq_claim (centers : List (List ℝ)) (cid : ℕ) (v : List ℝ)
    (hcid : cid < centers.length) :
    similarityScore centers cid v = claimSimilarity centers cid v := by
  have hC : centers.getD cid [] = centers.get ⟨cid, hcid⟩ := by
    rw [List.getD_eq_getElem?_getD, List.getElem?_eq_getElem hcid]
    rfl
  have hmax :
      (centers.map (fun ct => eucDist ct (centers.getD cid []))).foldr max 0 =
      ((centers.eraseIdx cid).map
        (fun ct => eucDist ct (centers.getD cid []))).foldr max 0 := by
    rw [foldrMaxEraseIdx (fun ct => eucDist ct (centers.getD cid []))
      centers cid hcid]
    rw [← hC, eucDist_self]
    exact max_eq_right (foldrMaxNonneg _)
  simp only [similarityScore, claimSimilarity, hmax]

theorem assignedCluster_e1 : assignedCluster e1 p1 = 0 := rfl

theorem similarity_e1 :
    similarityScore e1.centers (assignedCluster e1 p1) (scaledOf e1 p1) = 1 := by
  rw [assignedCluster_e1]
  simp only [similarityScore]
  have hm : ((e1.centers.map
      (fun ct => eucDist ct (e1.centers.getD 0 []))).foldr max 0) = 0 := by
    show max (eucDist (List.replicate 17 0) (List.replicate 17 0)) 0 = 0
    rw [eucDist_self, max_self]
  rw [hm, if_neg (lt_irrefl 0)]

theorem analyze_e1 : analyzePatient e1 p1 = Except.ok r1 := by
  have hs := similarity_e1
  rw [assignedCluster_e1] at hs
  simp only [analyzePatient, r1]
  rw [show e1.is_trained = true from rfl, if_pos rfl]
  simp only [assignedCluster_e1, hs]
  rfl

theorem bpCheck_critical (p : Patient) (s : SafetyState) (v : ℚ)
    (hbp : p.vitals.systolic_bp = some v) (h180 : 180 ≤ v) :
    (bpCheck p s).risk_level = .critical := by
  have hv : v ≠ 0 := by intro h; rw [h] at h180; norm_num at h180
  simp only [bpCheck, hbp]
  rw [if_neg hv, if_pos h180]

theorem glucoseCheck_keeps_critical (p : Patient) (s : SafetyState)
    (h : s.risk_level = .critical) :
    (glucoseCheck p s).risk_level = .critical := by
  cases hg : p.lab_results.fasting_glucose with
  | none => simp only [glucoseCheck, hg]; exact h
  | some v => simp only [glucoseCheck, hg]; split_ifs <;> simp [h]

theorem hba1cCheck_risk (p : Patient) (s : SafetyState) :
    (hba1cCheck p s).risk_level = s.risk_level := by
  cases hv : p.lab_results.hba1c with
  | none => simp only [hba1cCheck, hv]
  | some v => simp only [hba1cCheck, hv]; split_ifs <;> rfl

theorem bmiCheck_risk (p : Patient) (s : SafetyState) :
    (bmiCheck p s).risk_level = s.risk_level := by
  cases hv : bmi p.vitals with
  | none => simp only [bmiCheck, hv]
  | some v => simp only [bmiCheck, hv]; split_ifs <;> rfl

theorem tierCheck_keeps_critical (s : SafetyState)
    (h : s.risk_level = .critical) : (tierCheck s).risk_level = .critical := by
  simp only [tierCheck]
  rw [if_neg (by simp [h])]
  exact h

theorem urgentCheck_risk (s : SafetyState) :
    (urgentCheck s).risk_level = s.risk_level := by
  simp only [urgentCheck]
  split_ifs <;> rfl

theorem bpCheck_refs_critical (p : Patient) (s : SafetyState) (v : ℚ)
    (hbp : p.vitals.systolic_bp = some v) (h180 : 180 ≤ v) :
    (bpCheck p s).specialist_referrals = s.specialist_referrals := by
  have hv : v ≠ 0 := by intro h; rw [h] at h180; norm_num at h180
  simp only [bpCheck, hbp]
  rw [if_neg hv, if_pos h180]

theorem glucoseCheck_endo (p : Patient) (s : SafetyState) (g : ℚ)
    (hg : p.lab_results.fasting_glucose = some g) (h126 : 126 ≤ g)
    (h400 : g < 400) :
    "Endocrinologist for diabetes management" ∈
      (glucoseCheck p s).specialist_referrals := by
  have hgz : g ≠ 0 := by intro h; rw [h] at h126; norm_num at h126
  simp only [glucoseCheck, hg]
  rw [if_neg hgz, if_neg (not_le.mpr h400), if_pos h126]
  simp

theorem hba1cCheck_refs_mono (p : Patient) (s : SafetyState) (x : String)
    (h : x ∈ s.specialist_referrals) :
    x ∈ (hba1cCheck p s).specialist_referrals := by
  cases hv : p.lab_results.hba1c with
  | none => simp only [hba1cCheck, hv]; exact h
  | some v => simp only [hba1cCheck, hv]; split_ifs <;> simp [h]

theorem bmiCheck_refs_mono (p : Patient) (s : SafetyState) (x : String)
    (h : x ∈ s.specialist_referrals) :
    x ∈ (bmiCheck p s).specialist_referrals := by
  cases hv : bmi p.vitals with
  | none => simp only [bmiCheck, hv]; exact h
  | some v => simp only [bmiCheck, hv]; split_ifs <;> simp [h]

theorem tierCheck_refs (s : SafetyState) :
    (tierCheck s).specialist_referrals = s.specialist_referrals := by
  simp only [tierCheck]
  split_ifs <;> rfl

theorem urgentCheck_refs (s : SafetyState) :
    (urgentCheck s).specialist_referrals = s.specialist_referrals := by
  simp only [urgentCheck]
  split_ifs <;> rfl

/-! ## Claims -/

/-- C3: for every patient record with systolic_bp present and ≥ 180, the
produced SafetyAlert has risk_level CRITICAL regardless of all other
fields; no later check or the final tier mapping lowers it. -/
theorem claim3_theorem (p : Patient) (cp : ClusterProfile) (v : ℚ)
    (hbp : p.vitals.systolic_bp = some v) (h180 : 180 ≤ v) :
    (generateSafetyAlerts p cp).risk_level = RiskLevel.critical := by
  show (urgentCheck (tierCheck (bmiCheck p (hba1cCheck p (glucoseCheck p
    (bpCheck p initSafety)))))).risk_level = RiskLevel.critical
  rw [urgentCheck_risk]
  apply tierCheck_keeps_critical
  rw [bmiCheck_risk, hba1cCheck_risk]
  exact glucoseCheck_keeps_critical p _
    (bpCheck_critical p initSafety v hbp h180)

/-- C3 witness: a record with systolic_bp = 185 maps to CRITICAL. -/
theorem claim3_witness :
    (generateSafetyAlerts p185 profile0).risk_level = RiskLevel.critical :=
  claim3_theorem p185 profile0 185 rfl (by norm_num)

/-- C4: the ordered risk checks keep running after an earlier check raised
risk_level to CRITICAL: with systolic_bp ≥ 180 and fasting_glucose in
[126, 400), the endocrinologist referral is still appended while the risk
level stays CRITICAL (the final tier mapping being skipped when CRITICAL). -/
theorem claim4_theorem (p : Patient) (cp : ClusterProfile) (v g : ℚ)
    (hbp : p.vitals.systolic_bp = some v) (h180 : 180 ≤ v)
    (hg : p.lab_results.fasting_glucose = some g) (h126 : 126 ≤ g)
    (h400 : g < 400) :
    (generateSafetyAlerts p cp).risk_level = RiskLevel.critical ∧
    "Endocrinologist for diabetes management" ∈
      (generateSafetyAlerts p cp).specialist_referrals := by
  refine ⟨claim3_theorem p cp v hbp h180, ?_⟩
  show "Endocrinologist for diabetes management" ∈
    (urgentCheck (tierCheck (bmiCheck p (hba1cCheck p (glucoseCheck p
      (bpCheck p initSafety)))))).specialist_referrals
  rw [urgentCheck_refs, tierCheck_refs]
  apply bmiCheck_refs_mono
  apply hba1cCheck_refs_mono
  exact glucoseCheck_endo p _ g hg h126 h400

/-- C4 witness: systolic_bp = 185 and fasting_glucose = 200 yield CRITICAL
together with the endocrinologist referral. -/
theorem claim4_witness :
    (generateSafetyAlerts p185 profile0).risk_level = RiskLevel.critical ∧
    "Endocrinologist for diabetes management" ∈
      (generateSafetyAlerts p185 profile0).specialist_referrals :=
  claim4_theorem p185 profile0 185 200 rfl (by norm_num) rfl
    (by norm_num) (by norm_num)

/-- C5: invoking the inference entry points (per-record cluster analysis,
wellness-plan generation) before training completes fails with the
not-trained error (the `ValueError` raised at ml_engine.py line 204, which
the spec names `NotTrainedError`), propagated unchanged by
`generate_wellness_plan`. -/
theorem claim5_theorem (e : EngineState) (p : Patient)
    (h : e.is_trained = false) :
    analyzePatient e p = Except.error (MLError.notTrained notTrainedMsg) ∧
    generateWellnessPlan e p =
      Except.error (MLError.notTrained notTrainedMsg) := by
  have h1 : analyzePatient e p =
      Except.error (MLError.notTrained notTrainedMsg) := by
    unfold analyzePatient
    rw [h]
    rfl
  refine ⟨h1, ?_⟩
  unfold generateWellnessPlan
  rw [h1]

/-- C5 witness: both entry points fail on the concrete untrained state. -/
theorem claim5_witness :
    analyzePatient e0 p1 = Except.error (MLError.notTrained notTrainedMsg) ∧
    generateWellnessPlan e0 p1 =
      Except.error (MLError.notTrained notTrainedMsg) :=
  claim5_theorem e0 p1 rfl

/-- C1 counterexample: `analyze_patient` does write the computed similarity
into the shared per-cluster profile record — on the concrete trained state
`e1`, the stored profiles change (entry 0's similarity_score goes from 0.0
to 1.0), refuting the claim that they are unchanged. -/
theorem claim1_counterexample :
    analyzePatient e1 p1 = Except.ok r1 ∧
    r1.newState.profiles ≠ e1.profiles := by
  refine ⟨analyze_e1, ?_⟩
  intro hEq
  have hl : ([prof1] : List ClusterProfile) = [profile0] := hEq
  have h0 : prof1 = profile0 := ((List.cons.injEq _ _ _ _).mp hl).1
  have h1 := congrArg ClusterProfile.similarity_score h0
  simp [prof1, profile0] at h1

/-- C1 amended: on every successful call, `analyze_patient` overwrites the
assigned cluster's stored profile with the returned profile (the same
shared record, its similarity_score and confidence_level freshly set),
leaving every static field of that profile unchanged. -/
theorem claim1_amended (e : EngineState) (p : Patient) (r : AnalyzeResult)
    (hok : analyzePatient e p = Except.ok r) :
    r.newState.profiles = e.profiles.set (assignedCluster e p) r.profile ∧
    staticPart r.profile =
      staticPart (e.profiles.getD (assignedCluster e p) defaultProfile) ∧
    r.profile.similarity_score =
      similarityScore e.centers (assignedCluster e p) (scaledOf e p) ∧
    r.profile.confidence_level = r.profile.similarity_score * 0.9 := by
  unfold analyzePatient at hok
  cases ht : e.is_trained with
  | false => rw [ht] at hok; simp at hok
  | true =>
    rw [ht, if_pos rfl] at hok
    have hr := Except.ok.inj hok
    refine ⟨?_, ?_, ?_, ?_⟩ <;> rw [← hr]
    rfl

/-- C1 witness: the amended statement instantiated on the concrete call
`analyzePatient e1 p1`. -/
theorem claim1_witness :
    r1.newState.profiles = e1.profiles.set (assignedCluster e1 p1) r1.profile ∧
    staticPart r1.profile =
      staticPart (e1.profiles.getD (assignedCluster e1 p1) defaultProfile) ∧
    r1.profile.similarity_score =
      similarityScore e1.centers (assignedCluster e1 p1) (scaledOf e1 p1) ∧
    r1.profile.confidence_level = r1.profile.similarity_score * 0.9 :=
  claim1_amended e1 p1 r1 analyze_e1

/-- C2: on every successful analysis, the returned similarity equals
max(0, 1 − d/m) with m the maximum distance from the assigned centroid to
every other centroid (1.0 when that maximum is not positive), lies in
[0, 1], and confidence equals 0.9 × similarity exactly. -/
theorem claim2_theorem (e : EngineState) (p : Patient) (r : AnalyzeResult)
    (hok : analyzePatient e p = Except.ok r)
    (hcid : assignedCluster e p < e.centers.length) :
    r.profile.similarity_score =
      claimSimilarity e.centers (assignedCluster e p) (scaledOf e p) ∧
    0 ≤ r.profile.similarity_score ∧ r.profile.similarity_score ≤ 1 ∧
    r.profile.confidence_level = 0.9 * r.profile.similarity_score := by
  unfold analyzePatient at hok
  cases ht : e.is_trained with
  | false => rw [ht] at hok; simp at hok
  | true =>
    rw [ht, if_pos rfl] at hok
    have hr := Except.ok.inj hok
    refine ⟨?_, ?_, ?_, ?_⟩ <;> rw [← hr]
    · exact similarity_eq_claim _ _ _ hcid
    · exact similarityScore_nonneg _ _ _
    · exact similarityScore_le_one _ _ _
    · exact mul_comm _ _

/-- C2 witness: the statement instantiated on the concrete call
`analyzePatient e1 p1`. -/
theorem claim2_witness :
    r1.profile.similarity_score =
      claimSimilarity e1.centers (assignedCluster e1 p1) (scaledOf e1 p1) ∧
    0 ≤ r1.profile.similarity_score ∧ r1.profile.similarity_score ≤ 1 ∧
    r1.profile.confidence_level = 0.9 * r1.profile.similarity_score :=
  claim2_theorem e1 p1 r1 analyze_e1
    (by rw [assignedCluster_e1]; exact Nat.one_pos)

/-- C6 counterexample: on a three-record corpus whose third record has no
systolic_bp (the present values being 100 and 120), the training column the
code builds is [100, 120, 0] — the `or 0` in `to_dict` has already zeroed
the missing cell — while the claim's median imputation would give
[100, 120, 110]. -/
theorem claim6_counterexample :
    trainingColumn ps3 .systolicBp ≠ claimTrainingColumn ps3 .systolicBp := by
  have h1 : trainingColumn ps3 .systolicBp = [some 100, some 120, some 0] := by
    norm_num [trainingColumn, dfColumn, colMedian, fillna, medianQ, sortQ,
      insertSorted, ps3, pA, pB, pC, toDictNumFeature, rawNumFeature, pyOrZero]
  have h2 : claimTrainingColumn ps3 .systolicBp =
      [some 100, some 120, some 110] := by
    norm_num [claimTrainingColumn, colMedian, fillna, medianQ, sortQ,
      insertSorted, ps3, pA, pB, pC, rawNumFeature]
  rw [h1, h2]
  simp

/-- C6 amended: missing optional clinical values are imputed with 0 on the
training path and on the inference path alike: `to_dict` zero-fills them
before the DataFrame exists, so the training-time `fillna(median)` sees no
missing cell and leaves every column unchanged. -/
theorem claim6_amended (ps : List Patient) (f : NumFeature) (p : Patient) :
    trainingColumn ps f = dfColumn ps f ∧
    (rawNumFeature p f = none →
      toDictNumFeature p f = 0 ∧ inferenceNumCell p f = 0) := by
  constructor
  · cases hm : colMedian (dfColumn ps f) with
    | none =>
      simp only [trainingColumn]
      rw [hm]
      rfl
    | some m =>
      simp only [trainingColumn]
      rw [hm]
      simp [fillna, dfColumn, List.map_map, Function.comp]
  · intro hraw
    constructor
    · rw [toDictNumFeature, hraw]
      rfl
    · rw [inferenceNumCell, toDictNumFeature, hraw]
      rfl

/-- C6 witness: on the concrete corpus `ps3`, the median fill is a no-op,
and the record with the missing systolic value contributes 0 on both the
training and the inference path. -/
theorem claim6_witness :
    trainingColumn ps3 .systolicBp = dfColumn ps3 .systolicBp ∧
    toDictNumFeature pC .systolicBp = 0 ∧
    inferenceNumCell pC .systolicBp = 0 :=
  ⟨(claim6_amended ps3 .systolicBp pC).1, (claim6_amended ps3 .systolicBp pC).2 rfl⟩

/-- C7: the cluster profile does not branch any recommendation rule — the
nutrition, lifestyle and supplement bundles are identical for any two
cluster profiles given the same patient. -/
theorem claim7_theorem (p : Patient) (cp1 cp2 : ClusterProfile) :
    generateNutrition p cp1 = generateNutrition p cp2 ∧
    generateLifestyle p cp1 = generateLifestyle p cp2 ∧
    generateSupplements p cp1 = generateSupplements p cp2 :=
  ⟨rfl, rfl, rfl⟩

set_option maxHeartbeats 1000000 in
/-- C8: the assembled foods_to_emphasize and foods_to_avoid lists contain
no duplicate entries (final `list(set(...))` deduplication). -/
theorem claim8_theorem (p : Patient) (cp : ClusterProfile) :
    (generateNutrition p cp).foods_to_emphasize.Nodup ∧
    (generateNutrition p cp).foods_to_avoid.Nodup := by
  unfold generateNutrition
  exact ⟨List.nodup_dedup _, List.nodup_dedup _⟩

/-- The BMI of `VitalSigns` as the claim describes it: computed whenever
height and weight are present and height > 0, undefined otherwise.  Stated
from the claim's words, for comparison with `bmi`. -/
def claimBmi (v : VitalSigns) : Option ℚ :=
  match v.height, v.weight with
  | some h, some w =>
      if 0 < h then some (round1 (w / ((h / 100) ^ 2))) else none
  | _, _ => none

/-- C9 counterexample: with height 165 (present, positive) and weight 0
(present), the claim computes BMI = 0.0 but the code's truthiness test
(`if self.height and self.weight and ...`) yields None. -/
theorem claim9_counterexample : bmi v0 ≠ claimBmi v0 := by
  norm_num [bmi, claimBmi, v0]
  exact fun hn => Option.noConfusion hn

/-- C9 amended: BMI is weight / (height in m)² rounded to 1 decimal when
height and weight are present, height > 0 and weight ≠ 0; it is None when
height or weight is missing, weight is 0, or height ≤ 0. -/
theorem claim9_amended (v : VitalSigns) :
    (∀ h w, v.height = some h → v.weight = some w → 0 < h → w ≠ 0 →
      bmi v = some (round1 (w / ((h / 100) ^ 2)))) ∧
    ((v.height = none ∨ v.weight = none ∨ v.weight = some 0 ∨
      ∀ h, v.height = some h → h ≤ 0) → bmi v = none) := by
  constructor
  · intro h w hh hw h0 w0
    simp only [bmi, hh, hw]
    rw [if_pos ⟨ne_of_gt h0, w0, h0⟩]
  · intro hcase
    rcases hcase with hh | hw | hw0 | hle
    · cases hw : v.weight <;> simp [bmi, hh, hw]
    · cases hh : v.height <;> simp [bmi, hh, hw]
    · cases hh : v.height with
      | none => simp [bmi, hh]
      | some h =>
        simp only [bmi, hh, hw0]
        rw [if_neg]
        intro hc
        exact hc.2.1 rfl
    · cases hh : v.height with
      | none => cases hw : v.weight <;> simp [bmi, hh, hw]
      | some h =>
        cases hw : v.weight with
        | none => simp [bmi, hh, hw]
        | some w =>
          simp only [bmi, hh, hw]
          rw [if_neg]
          intro hc
          exact absurd (hle h hh) (not_le.mpr hc.2.2)

/-- C9 witness: BMI(weight 82 kg, height 165 cm) = 30.1, via the amended
statement's positive branch. -/
theorem claim9_witness : bmi vTest = some (301/10) := by
  have h := (claim9_amended vTest).1 165 82 rfl rfl (by norm_num) (by norm_num)
  rw [h]
  norm_num [round1, pyRound, round_eq]

theorem genderMaleColumn_other (ps : List Patient)
    (hps : ∀ q ∈ ps, q.gender = Gender.other) :
    genderMaleColumn ps = List.replicate ps.length 0 := by
  induction ps with
  | nil => rfl
  | cons a t ih =>
    have ha := hps a (List.mem_cons_self a t)
    have ht := ih (fun q hq => hps q (List.mem_cons_of_mem a hq))
    simp only [genderMaleColumn, List.map_cons] at ht ⊢
    rw [ht, ha, List.length_cons, List.replicate_succ]
    rfl

theorem genderFemaleColumn_other (ps : List Patient)
    (hps : ∀ q ∈ ps, q.gender = Gender.other) :
    genderFemaleColumn ps = List.replicate ps.length 0 := by
  induction ps with
  | nil => rfl
  | cons a t ih =>
    have ha := hps a (List.mem_cons_self a t)
    have ht := ih (fun q hq => hps q (List.mem_cons_of_mem a hq))
    simp only [genderFemaleColumn, List.map_cons] at ht ⊢
    rw [ht, ha, List.length_cons, List.replicate_succ]
    rfl

/-- C10: for a patient whose gender is OTHER, the gender_male and
gender_female features are both 0 — in the inference feature vector
(entries 15 and 16) and in the training DataFrame columns alike. -/
theorem claim10_theorem (p : Patient) (hp : p.gender = Gender.other)
    (ps : List Patient) (hps : ∀ q ∈ ps, q.gender = Gender.other) :
    genderMaleFeature p.gender = 0 ∧ genderFemaleFeature p.gender = 0 ∧
    (featureVector p).drop 15 = [0, 0] ∧
    genderMaleColumn ps = List.replicate ps.length 0 ∧
    genderFemaleColumn ps = List.replicate ps.length 0 := by
  refine ⟨?_, ?_, ?_, genderMaleColumn_other ps hps,
    genderFemaleColumn_other ps hps⟩
  · rw [hp]; rfl
  · rw [hp]; rfl
  · show [genderMaleFeature p.gender, genderFemaleFeature p.gender] = [0, 0]
    rw [hp]; rfl

/-- C10 witness: the concrete OTHER-gender patient, alone in a one-record
corpus. -/
theorem claim10_witness :
    genderMaleFeature pOther.gender = 0 ∧
    genderFemaleFeature pOther.gender = 0 ∧
    (featureVector pOther).drop 15 = [0, 0] ∧
    genderMaleColumn [pOther] = List.replicate ([pOther].length) 0 ∧
    genderFemaleColumn [pOther] = List.replicate ([pOther].length) 0 :=
  claim10_theorem pOther rfl [pOther]
    (fun q hq => by rw [List.mem_singleton.mp hq]; rfl)

end HealthAI
